import Mathlib

/-!
Verification of the wicked DHCPv6 client FSM specification against the
repository sources.

Embedded code:
* the DHCPv6 FSM state enumeration and public surface from the fsm header
  (`NI_DHCP6_STATE_*`, `ni_dhcp6_fsm_set_timeout_msec`, `ni_dhcp6_fsm_set_timeout`);
* the addrconf supplicant signal handler `ni_objectmodel_addrconf_signal_handler`
  from `src/dbus-objects/addrconf.c`;
* the reference-counting macros from `include/wicked/refcount.h`
  (`ni_refcounted_define_ref/free/hold/drop/move`).

The FSM core, transaction scheduler and lease store are declared in the
header but their implementation is not part of the source tree given here;
those parts are modelled from the specification text and are marked
`Modelled from the spec:` in their doc comments.
-/

namespace Wicked

/-! ## FSM state enumeration (dhcp6 fsm header)

The C header declares an anonymous enum whose enumerators, in order and
without explicit values, are the eleven FSM states followed by the
`__NI_DHCP6_STATE_MAX` sentinel; C therefore assigns 0,1,2,... in order. -/

def NI_DHCP6_STATE_INIT : Nat := 0
def NI_DHCP6_STATE_SELECTING : Nat := 1
def NI_DHCP6_STATE_REQUESTING : Nat := 2
def NI_DHCP6_STATE_VALIDATING : Nat := 3
def NI_DHCP6_STATE_BOUND : Nat := 4
def NI_DHCP6_STATE_RENEWING : Nat := 5
def NI_DHCP6_STATE_REBINDING : Nat := 6
def NI_DHCP6_STATE_REBOOT : Nat := 7
def NI_DHCP6_STATE_RENEW_REQUESTED : Nat := 8
def NI_DHCP6_STATE_RELEASED : Nat := 9
def NI_DHCP6_STATE_REQUESTING_INFO : Nat := 10

/-- The `__NI_DHCP6_STATE_MAX` sentinel that closes the enum (the leading
underscores of the C name are dropped). -/
def NI_DHCP6_STATE_MAX : Nat := 11

/-- The eleven FSM states in the order the header enumerates them. -/
def ni_dhcp6_fsm_states : List Nat :=
  [NI_DHCP6_STATE_INIT, NI_DHCP6_STATE_SELECTING, NI_DHCP6_STATE_REQUESTING,
   NI_DHCP6_STATE_VALIDATING, NI_DHCP6_STATE_BOUND, NI_DHCP6_STATE_RENEWING,
   NI_DHCP6_STATE_REBINDING, NI_DHCP6_STATE_REBOOT, NI_DHCP6_STATE_RENEW_REQUESTED,
   NI_DHCP6_STATE_RELEASED, NI_DHCP6_STATE_REQUESTING_INFO]

/-! ## Supervisor-side addrconf signal handler (src/dbus-objects/addrconf.c)

`ni_objectmodel_addrconf_signal_handler` dispatches on the DBus member name
with `strcmp`; the member names that reach the lease-update code are
`LeaseAcquired`, `LeaseReleased` and `LeaseLost`.  The embedding models the
path on which the interface was resolved from the object path, the service
was recognized, and the lease argument parsed successfully (all earlier
`goto done` exits leave the interface untouched, which is also how the
fall-through branch for unknown members behaves). -/

/-- Addrconf lease states referenced by the handler
(`NI_ADDRCONF_STATE_GRANTED/RELEASED/FAILED`); the spec's lease-state set. -/
inductive ni_addrconf_state where
  | granted
  | applied
  | released
  | failed
deriving DecidableEq, Repr

/-- Slice of `ni_addrconf_lease_t` relevant to the handler: its state plus an
opaque payload distinguishing lease objects. -/
structure ni_addrconf_lease where
  state : ni_addrconf_state
  uuid : Nat
deriving DecidableEq, Repr

/-- Slice of `ni_interface_t`: the lease slot the handler updates. -/
structure ni_interface where
  lease : Option ni_addrconf_lease
deriving DecidableEq, Repr

/-- The DBus member names the handler compares against (an unknown member is
`otherSignal`). -/
inductive addrconf_signal where
  | leaseAcquired
  | leaseReleased
  | leaseLost
  | otherSignal
deriving DecidableEq, Repr

/-- `__ni_system_interface_update_lease`: the interface object takes ownership
of the lease; modelled as installing the lease in the interface's slot. -/
def interface_update_lease (ifp : ni_interface) (lease : ni_addrconf_lease) : ni_interface :=
  { ifp with lease := some lease }

/-- The lease-update core of `ni_objectmodel_addrconf_signal_handler`
(addrconf.c lines 188-212): `LeaseAcquired` rejects any lease whose state is
not `GRANTED` (error message, `goto done`, lease freed, interface untouched);
`LeaseReleased` overwrites the lease state with `RELEASED` and `LeaseLost`
with `FAILED` before handing the lease to the interface. -/
def ni_objectmodel_addrconf_signal_handler (sig : addrconf_signal)
    (ifp : ni_interface) (lease : ni_addrconf_lease) : ni_interface :=
  match sig with
  | .leaseAcquired =>
      if lease.state ≠ .granted then
        ifp
      else
        interface_update_lease ifp lease
  | .leaseReleased =>
      interface_update_lease ifp { lease with state := .released }
  | .leaseLost =>
      interface_update_lease ifp { lease with state := .failed }
  | .otherSignal => ifp

/-! ## FSM test-injection timeout setters (dhcp6 fsm header)

The header declares `ni_dhcp6_fsm_set_timeout_msec(ni_dhcp6_device_t *,
unsigned long)` taking milliseconds, and `ni_dhcp6_fsm_set_timeout(
ni_dhcp6_device_t *, unsigned int)` taking seconds. -/

/-- Modelled from the spec: the timer slice of `ni_dhcp6_device_t` — the
monotonic clock value and the single per-device one-shot deadline with
millisecond resolution (fsm.c is not in the source tree). -/
structure ni_dhcp6_device_timer where
  now_msec : Nat
  deadline_msec : Option Nat
deriving DecidableEq, Repr

/-- Modelled from the spec: `ni_dhcp6_fsm_set_timeout_msec` arms the
per-device one-shot deadline the given number of milliseconds from now. -/
def ni_dhcp6_fsm_set_timeout_msec (dev : ni_dhcp6_device_timer) (msec : Nat) :
    ni_dhcp6_device_timer :=
  { dev with deadline_msec := some (dev.now_msec + msec) }

/-- Modelled from the spec: `ni_dhcp6_fsm_set_timeout` takes the timeout in
seconds and delegates to the millisecond setter. -/
def ni_dhcp6_fsm_set_timeout (dev : ni_dhcp6_device_timer) (seconds : Nat) :
    ni_dhcp6_device_timer :=
  ni_dhcp6_fsm_set_timeout_msec dev (1000 * seconds)

/-! ## FSM core (modelled from the spec)

The fsm header only declares the state enum and entry points; the FSM core
implementation (fsm.c) is not in the source tree.  The step function below is
modelled from the spec's transition table in section 4.1, with guards resolved
into event payloads.  Per the spec's section 3 invariant, `RELEASED` is not a
transactional state, so the Release send on entering `RELEASED` is modelled as
fire-and-forget (no tracked transaction id). -/

/-- The eleven FSM states as a Lean sum type, mirroring `NI_DHCP6_STATE_*`. -/
inductive Dhcp6State where
  | INIT
  | SELECTING
  | REQUESTING
  | VALIDATING
  | BOUND
  | RENEWING
  | REBINDING
  | REBOOT
  | RENEW_REQUESTED
  | RELEASED
  | REQUESTING_INFO
deriving DecidableEq, Repr

/-- Modelled from the spec: per-device FSM slice — current state and the
24-bit transaction id of the current transaction (absent when none). -/
structure Dhcp6Dev where
  state : Dhcp6State
  current_xid : Option Nat
deriving DecidableEq, Repr

/-- Modelled from the spec: events consumed by the FSM core (section 4.1),
with the transition-table guards resolved into event payloads:
`timerFired budgetLeft pendingNonEmpty` says whether the MRC/MRD budget still
allows a retransmission and whether the Advertise pending set is non-empty;
`rxReplyNoAddrsAvail pendingNonEmpty` likewise. -/
inductive Dhcp6Ev where
  | linkUp
  | linkDown
  | startManaged (cachedLease : Bool)
  | startInfo
  | rxAdvertise (pref : Nat)
  | rxReplyRapidCommit
  | rxReplySuccess
  | rxReplyNotOnLink
  | rxReplyNoAddrsAvail (pendingNonEmpty : Bool)
  | timerFired (budgetLeft : Bool) (pendingNonEmpty : Bool)
  | userRenew
  | userRelease
  | leaseApplied (ok : Bool)
deriving DecidableEq, Repr

/-- Outbound actions the FSM core emits. -/
inductive Dhcp6Out where
  | sendSolicit
  | sendRequest
  | sendConfirm
  | sendRenew
  | sendRebind
  | sendRelease
  | sendInfoRequest
  | leaseLost
deriving DecidableEq, Repr

/-- Modelled from the spec: one step of the FSM core per the section 4.1
transition table.  `fresh` is the uniformly random 24-bit id drawn whenever a
new transaction starts (Solicit, Request, Confirm, Renew, Rebind,
InformationRequest each get a fresh id; retransmissions keep the id).
`LinkDown` from any state cancels the timer and returns to `INIT`; events not
covered by a table row leave the device unchanged. -/
def ni_dhcp6_fsm_step (d : Dhcp6Dev) (ev : Dhcp6Ev) (fresh : Nat) :
    Dhcp6Dev × List Dhcp6Out :=
  match d.state, ev with
  | _, .linkDown => (⟨.INIT, none⟩, [])
  | .INIT, .startManaged false => (⟨.SELECTING, some fresh⟩, [.sendSolicit])
  | .INIT, .startManaged true => (⟨.REBOOT, some fresh⟩, [.sendConfirm])
  | .INIT, .linkUp => (⟨.SELECTING, some fresh⟩, [.sendSolicit])
  | .INIT, .startInfo => (⟨.REQUESTING_INFO, some fresh⟩, [.sendInfoRequest])
  | .SELECTING, .rxAdvertise pref =>
      if pref = 255 then (⟨.REQUESTING, some fresh⟩, [.sendRequest]) else (d, [])
  | .SELECTING, .rxReplyRapidCommit => (⟨.VALIDATING, none⟩, [])
  | .SELECTING, .timerFired _ pending =>
      if pending then (⟨.REQUESTING, some fresh⟩, [.sendRequest])
      else (d, [.sendSolicit])
  | .REQUESTING, .rxReplySuccess => (⟨.VALIDATING, none⟩, [])
  | .REQUESTING, .rxReplyNotOnLink => (⟨.INIT, none⟩, [])
  | .REQUESTING, .rxReplyNoAddrsAvail pending =>
      (⟨.SELECTING, some fresh⟩, [if pending then .sendRequest else .sendSolicit])
  | .REQUESTING, .timerFired budget _ =>
      if budget then (d, [.sendRequest]) else (⟨.INIT, none⟩, [.leaseLost])
  | .REBOOT, .rxReplySuccess => (⟨.VALIDATING, none⟩, [])
  | .REBOOT, .timerFired budget _ =>
      if budget then (d, [.sendConfirm]) else (⟨.SELECTING, some fresh⟩, [.sendSolicit])
  | .VALIDATING, .leaseApplied ok =>
      if ok then (⟨.BOUND, none⟩, []) else (⟨.INIT, none⟩, [])
  | .BOUND, .timerFired _ _ => (⟨.RENEWING, some fresh⟩, [.sendRenew])
  | .BOUND, .userRenew => (⟨.RENEW_REQUESTED, some fresh⟩, [.sendRenew])
  | .BOUND, .userRelease => (⟨.RELEASED, none⟩, [.sendRelease])
  | .RENEWING, .rxReplySuccess => (⟨.VALIDATING, none⟩, [])
  | .RENEWING, .timerFired budget _ =>
      if budget then (d, [.sendRenew]) else (⟨.REBINDING, some fresh⟩, [.sendRebind])
  | .RENEWING, .userRelease => (⟨.RELEASED, none⟩, [.sendRelease])
  | .REBINDING, .rxReplySuccess => (⟨.VALIDATING, none⟩, [])
  | .REBINDING, .timerFired budget _ =>
      if budget then (d, [.sendRebind]) else (⟨.INIT, none⟩, [.leaseLost])
  | .REBINDING, .userRelease => (⟨.RELEASED, none⟩, [.sendRelease])
  | .RENEW_REQUESTED, .rxReplySuccess => (⟨.VALIDATING, none⟩, [])
  | .RENEW_REQUESTED, .timerFired budget _ =>
      if budget then (d, [.sendRenew]) else (⟨.INIT, none⟩, [.leaseLost])
  | .REQUESTING_INFO, .rxReplySuccess => (⟨.INIT, none⟩, [])
  | .REQUESTING_INFO, .timerFired _ _ => (d, [.sendInfoRequest])
  | _, _ => (d, [])

/-- The transactional states of the spec's section 3 invariant: SELECTING,
REQUESTING, RENEWING, REBINDING, REBOOT, REQUESTING_INFO, RENEW_REQUESTED. -/
def transactionalState : Dhcp6State → Bool
  | .SELECTING => true
  | .REQUESTING => true
  | .RENEWING => true
  | .REBINDING => true
  | .REBOOT => true
  | .REQUESTING_INFO => true
  | .RENEW_REQUESTED => true
  | _ => false

/-- The spec invariant: `current_xid` is set iff the state is transactional. -/
def xidInvariant (d : Dhcp6Dev) : Prop :=
  d.current_xid.isSome = transactionalState d.state

instance (d : Dhcp6Dev) : Decidable (xidInvariant d) := by
  unfold xidInvariant; infer_instance

/-- The BOUND-like states from which `UserRelease` reaches `RELEASED`
(spec: reachable from BOUND/RENEWING/REBINDING on user request). -/
def boundLikeState : Dhcp6State → Bool
  | .BOUND => true
  | .RENEWING => true
  | .REBINDING => true
  | _ => false

/-! ## Elapsed Time option (modelled from the spec)

The FSM records the milliseconds since the first send of the current
transaction; the codec scales to hundredths of a second and clamps to
0xFFFF. -/

/-- Modelled from the spec: transaction slice — id and monotonic
first-send instant in milliseconds. -/
structure Dhcp6Transaction where
  xid : Nat
  started_at : Nat
deriving DecidableEq, Repr

/-- Modelled from the spec: milliseconds since the transaction's first send
(monotonic clock, so `now ≥ started_at`; Nat subtraction truncates at 0). -/
def dhcp6_elapsed_ms (tx : Dhcp6Transaction) (now : Nat) : Nat :=
  now - tx.started_at

/-- Modelled from the spec: the codec performs the unit scaling of the
Elapsed Time option — hundredths of a second, clamped to 0xFFFF units. -/
def dhcp6_encode_elapsed_time (ms : Nat) : Nat :=
  min 65535 (ms / 10)

/-- Wire view of a generated message: transaction id and Elapsed Time
option value. -/
structure Dhcp6Message where
  xid : Nat
  elapsed_time : Nat
deriving DecidableEq, Repr

/-- Modelled from the spec: every (re)transmitted message of a transaction
carries the clamped, scaled elapsed time for that transaction. -/
def dhcp6_mk_message (tx : Dhcp6Transaction) (now : Nat) : Dhcp6Message :=
  { xid := tx.xid, elapsed_time := dhcp6_encode_elapsed_time (dhcp6_elapsed_ms tx now) }

/-! ## Transaction scheduler (modelled from the spec, section 4.2)

RFC 3315 section 14 retransmission with plus/minus 0.1 randomization.
Timeouts are rationals; the randomization draw of try `n` is `rand n`. -/

/-- Modelled from the spec: the next per-try timeout.  Subsequent tries use
`RT = 2 * RT_prev * (1 + rand)`, capped by `MRT * (1 + rand)` once
`RT_prev ≥ MRT / 2` (at which point the doubled value would reach MRT). -/
def dhcp6_next_rt (mrt rt_prev rand : ℚ) : ℚ :=
  if mrt / 2 ≤ rt_prev then mrt * (1 + rand) else 2 * rt_prev * (1 + rand)

/-- Modelled from the spec: the generic per-try timeout sequence of a
transaction — first attempt `IRT * (1 + rand 0)`, then `dhcp6_next_rt`. -/
def dhcp6_rt_seq (irt mrt : ℚ) (rand : ℕ → ℚ) : ℕ → ℚ
  | 0 => irt * (1 + rand 0)
  | n + 1 => dhcp6_next_rt mrt (dhcp6_rt_seq irt mrt rand n) (rand (n + 1))

/-- The transaction kinds of the spec's data model. -/
inductive Dhcp6TxKind where
  | Solicit
  | Request
  | Confirm
  | Renew
  | Rebind
  | Release
  | Decline
  | InformationRequest
deriving DecidableEq, Repr

/-- Modelled from the spec: the scheduler's per-try timeout for a transaction
of a given kind.  Special-case Solicit first attempt: the timeout is further
delayed by a uniformly drawn fraction `frac ∈ [0,1]` of IRT, added on top. -/
def dhcp6_sched_rt (kind : Dhcp6TxKind) (frac irt mrt : ℚ) (rand : ℕ → ℚ)
    (n : ℕ) : ℚ :=
  match kind with
  | .Solicit => dhcp6_rt_seq irt mrt rand n + (if n = 0 then frac * irt else 0)
  | _ => dhcp6_rt_seq irt mrt rand n

/-- The deterministic reference schedule of the spec's envelope law: the
timeout sequence with the randomization fixed at the constant `r`
(it starts at IRT, doubles each try, and is capped at MRT). -/
def dhcp6_det_rt (irt mrt r : ℚ) (n : ℕ) : ℚ :=
  dhcp6_rt_seq irt mrt (fun _ => r) n

/-! ## Lease store T1/T2 (modelled from the spec, sections 3 and 4.5) -/

/-- An `IAAddr` of the lease: address handle plus preferred and valid
lifetimes (rationals, seconds). -/
structure IAAddr where
  addr : Nat
  preferred : ℚ
  valid : ℚ
deriving DecidableEq, Repr

/-- Minimum valid lifetime over the addresses of a lease (0 for an empty
address list). -/
def lease_min_valid : List IAAddr → ℚ
  | [] => 0
  | [a] => a.valid
  | a :: rest => min a.valid (lease_min_valid rest)

/-- Longest preferred lifetime among the addresses of a lease (0 for an
empty address list). -/
def lease_max_preferred : List IAAddr → ℚ
  | [] => 0
  | [a] => a.preferred
  | a :: rest => max a.preferred (lease_max_preferred rest)

/-- Modelled from the spec: the lease store's effective T1/T2 computation —
server values are used as supplied; if both are zero ("server choice") the
client derives T1 = 0.5 and T2 = 0.8 of the longest preferred lifetime
among the lease's addresses. -/
def lease_effective_t1t2 (t1 t2 : ℚ) (addrs : List IAAddr) : ℚ × ℚ :=
  if t1 = 0 ∧ t2 = 0 then
    (lease_max_preferred addrs / 2, 4 * lease_max_preferred addrs / 5)
  else
    (t1, t2)

/-- Two-address lease exhibiting that the derived T2 can exceed the minimum
valid lifetime: each address satisfies preferred ≤ valid, yet the longest
preferred lifetime (100) exceeds the minimum valid lifetime (10). -/
def lease_t1t2_cex_addrs : List IAAddr :=
  [⟨1, 100, 100⟩, ⟨2, 10, 10⟩]

/-! ## Reference counting (include/wicked/refcount.h)

The macros `ni_refcounted_define_ref/free/hold/drop/move` are embedded over a
small heap: object identities are naturals, the heap maps an identity to its
reference count while allocated (`none` = freed or never allocated).  A
`prefix_t *` value is `Option Nat` (`none` = NULL); a `prefix_t **` argument
is `Option (Option Nat)` (`none` = NULL pointer-to-pointer, otherwise the
content of the pointed-to cell).  The two cells passed to `move` are distinct
in every caller, so they are modelled as separate values.

`ni_refcount_increment`/`ni_refcount_decrement` are declared in refcount.h
but defined elsewhere; modelled from the spec/header use: a live-checked
counter where increment adds one to a non-zero count and decrement subtracts
one and reports whether the count reached zero (the macros' `free` destroys
exactly then). -/

/-- Heap: object identity to reference count while allocated. -/
def RcHeap : Type := Nat → Option Nat

/-- Update the heap at one identity. -/
def rcHeapSet (h : RcHeap) (i : Nat) (v : Option Nat) : RcHeap :=
  fun j => if j = i then v else h j

/-- Modelled from the spec: `ni_refcount_increment` — adds one to a live
(non-zero) count, failing on a dead or unallocated object. -/
def ni_refcount_increment (h : RcHeap) (i : Nat) : RcHeap × Bool :=
  match h i with
  | some n => if n = 0 then (h, false) else (rcHeapSet h i (some (n + 1)), true)
  | none => (h, false)

/-- Modelled from the spec: `ni_refcount_decrement` — subtracts one from a
live count and returns whether it reached zero. -/
def ni_refcount_decrement (h : RcHeap) (i : Nat) : RcHeap × Bool :=
  match h i with
  | some n =>
      if n = 0 then (h, false)
      else (rcHeapSet h i (some (n - 1)), decide (n - 1 = 0))
  | none => (h, false)

/-- `ni_refcounted_define_ref`: NULL-tolerant acquire — increments the count
and returns the same pointer, or NULL on failure. -/
def ni_refcounted_ref (h : RcHeap) (ref : Option Nat) : RcHeap × Option Nat :=
  match ref with
  | some i =>
      match ni_refcount_increment h i with
      | (h1, true) => (h1, some i)
      | (h1, false) => (h1, none)
  | none => (h, none)

/-- `ni_refcounted_define_free`: NULL-tolerant release — decrements the count
and, when it was the last reference, destroys and frees the object
(the identity leaves the heap). -/
def ni_refcounted_free (h : RcHeap) (ref : Option Nat) : RcHeap :=
  match ref with
  | some i =>
      match ni_refcount_decrement h i with
      | (h1, true) => rcHeapSet h1 i none
      | (h1, false) => h1
  | none => h

/-- `ni_refcounted_define_hold`: with non-NULL `tie` and non-NULL `ref`,
remembers the old `*tie`, stores a new reference to `ref` in `*tie`, frees
the old one and returns TRUE; otherwise returns FALSE and changes nothing.
Result: (heap, updated tie, return value). -/
def ni_refcounted_hold (h : RcHeap) (tie : Option (Option Nat)) (ref : Option Nat) :
    RcHeap × Option (Option Nat) × Bool :=
  match tie, ref with
  | some old, some i =>
      match ni_refcounted_ref h (some i) with
      | (h1, newref) => (ni_refcounted_free h1 old, some newref, true)
  | _, _ => (h, tie, false)

/-- `ni_refcounted_define_drop`: with non-NULL `tie`, sets `*tie` to NULL and
frees the old `*tie`, returning TRUE; with NULL `tie` returns FALSE.
Result: (heap, updated tie, return value). -/
def ni_refcounted_drop (h : RcHeap) (tie : Option (Option Nat)) :
    RcHeap × Option (Option Nat) × Bool :=
  match tie with
  | some old => (ni_refcounted_free h old, some none, true)
  | none => (h, none, false)

/-- `ni_refcounted_define_move`: `hold(dst, *src)` then `drop(src)`; with
NULL `src` or failing hold, returns FALSE.
Result: (heap, updated dst, updated src, return value). -/
def ni_refcounted_move (h : RcHeap) (dst src : Option (Option Nat)) :
    RcHeap × Option (Option Nat) × Option (Option Nat) × Bool :=
  match src with
  | some sval =>
      match ni_refcounted_hold h dst sval with
      | (h1, dst1, true) =>
          match ni_refcounted_drop h1 (some sval) with
          | (h2, src1, ok2) => (h2, dst1, src1, ok2)
      | (h1, dst1, false) => (h1, dst1, some sval, false)
  | none => (h, dst, none, false)

/-- Heap of the move counterexample: a single object with reference count 2,
referenced by both the destination and the source cell. -/
def rc_move_cex_heap : RcHeap :=
  fun j => if j = 0 then some 2 else none

/-- Heap for concrete witnesses: object 0 with count 2, object 1 with
count 1. -/
def rc_witness_heap : RcHeap :=
  fun j => if j = 0 then some 2 else if j = 1 then some 1 else none

/-! ## Theorems -/

/-- C1: the FSM state type enumerates exactly the 11 states INIT, SELECTING,
REQUESTING, VALIDATING, BOUND, RENEWING, REBINDING, REBOOT, RENEW_REQUESTED,
RELEASED, REQUESTING_INFO, in that order; the enum's max sentinel equals 11
and the state values below the sentinel are exactly these eleven, in order. -/
theorem dhcp6_fsm_state_enum_exact :
    NI_DHCP6_STATE_MAX = 11 ∧
    List.range NI_DHCP6_STATE_MAX = ni_dhcp6_fsm_states := by
  decide

/-- C2: the supervisor-side signal handler updates the interface's lease on
`LeaseAcquired` only when the carried lease is in state Granted (otherwise the
lease is discarded and the interface is unchanged); `LeaseReleased` sets the
lease state to Released and `LeaseLost` sets it to Failed before the
interface update. -/
theorem addrconf_signal_handler_lease_states (ifp : ni_interface)
    (lease : ni_addrconf_lease) :
    ni_objectmodel_addrconf_signal_handler .leaseAcquired ifp lease =
      (if lease.state = .granted then interface_update_lease ifp lease else ifp) ∧
    ni_objectmodel_addrconf_signal_handler .leaseReleased ifp lease =
      interface_update_lease ifp { lease with state := .released } ∧
    ni_objectmodel_addrconf_signal_handler .leaseLost ifp lease =
      interface_update_lease ifp { lease with state := .failed } := by
  refine ⟨?_, rfl, rfl⟩
  by_cases hg : lease.state = .granted <;>
    simp [ni_objectmodel_addrconf_signal_handler, hg]

/-- C3: the FSM public surface provides two test-injection timeout setters:
`ni_dhcp6_fsm_set_timeout_msec` arms the deadline the given number of
milliseconds from now, and `ni_dhcp6_fsm_set_timeout` takes the timeout in
seconds, delegating to the millisecond setter with a factor of 1000. -/
theorem dhcp6_fsm_timeout_setters (dev : ni_dhcp6_device_timer)
    (msec seconds : Nat) :
    (ni_dhcp6_fsm_set_timeout_msec dev msec).deadline_msec =
      some (dev.now_msec + msec) ∧
    ni_dhcp6_fsm_set_timeout dev seconds =
      ni_dhcp6_fsm_set_timeout_msec dev (1000 * seconds) :=
  ⟨rfl, rfl⟩

/-- C6: every message generated for a transaction carries an Elapsed Time
option equal to the milliseconds since the transaction's first send divided
by ten (hundredths of a second) and clamped to 0xFFFF; in particular the
value always fits in 16 bits. -/
theorem dhcp6_elapsed_time_option (tx : Dhcp6Transaction) (now : Nat) :
    (dhcp6_mk_message tx now).elapsed_time =
      min 65535 ((now - tx.started_at) / 10) ∧
    (dhcp6_mk_message tx now).elapsed_time ≤ 65535 := by
  refine ⟨rfl, ?_⟩
  simp [dhcp6_mk_message, dhcp6_encode_elapsed_time]

/-- C4: the FSM step preserves the invariant that `current_xid` is set iff
the state is one of SELECTING, REQUESTING, RENEWING, REBINDING, REBOOT,
REQUESTING_INFO, RENEW_REQUESTED; so the invariant holds at every event
boundary of a device started from a state satisfying it. -/
theorem dhcp6_xid_invariant_preserved (d : Dhcp6Dev) (ev : Dhcp6Ev) (fresh : Nat)
    (h : xidInvariant d) : xidInvariant (ni_dhcp6_fsm_step d ev fresh).1 := by
  obtain ⟨s, x⟩ := d
  cases ev <;> cases s <;>
    simp_all [ni_dhcp6_fsm_step, xidInvariant, transactionalState] <;>
    split <;>
    simp_all

/-- Witness for C4 at a concrete device and event. -/
theorem dhcp6_xid_invariant_preserved_witness :
    xidInvariant (⟨.INIT, none⟩ : Dhcp6Dev) ∧
    xidInvariant (ni_dhcp6_fsm_step ⟨.INIT, none⟩ (.startManaged false) 7).1 :=
  ⟨by decide,
   dhcp6_xid_invariant_preserved ⟨.INIT, none⟩ (.startManaged false) 7 (by decide)⟩

/-- C7: Release is idempotent — from a BOUND-like state, delivering
`UserRelease` twice produces exactly one Release send (the first delivery
moves to RELEASED and sends Release, the second is a no-op), and delivering
`UserRelease` to a device already in RELEASED changes nothing and sends
nothing. -/
theorem dhcp6_release_idempotent (d rd : Dhcp6Dev) (f1 f2 f3 : Nat)
    (hb : boundLikeState d.state = true) (hr : rd.state = .RELEASED) :
    ((ni_dhcp6_fsm_step d .userRelease f1).2 ++
       (ni_dhcp6_fsm_step (ni_dhcp6_fsm_step d .userRelease f1).1
          .userRelease f2).2).count .sendRelease = 1 ∧
    (ni_dhcp6_fsm_step d .userRelease f1).1.state = .RELEASED ∧
    ni_dhcp6_fsm_step (ni_dhcp6_fsm_step d .userRelease f1).1 .userRelease f2 =
      ((ni_dhcp6_fsm_step d .userRelease f1).1, []) ∧
    ni_dhcp6_fsm_step rd .userRelease f3 = (rd, []) := by
  obtain ⟨s, x⟩ := d
  obtain ⟨s2, x2⟩ := rd
  simp only at hb hr
  subst hr
  cases s <;> simp_all [ni_dhcp6_fsm_step, boundLikeState]

/-- Witness for C7 at a concrete BOUND device and a concrete RELEASED
device. -/
theorem dhcp6_release_idempotent_witness :
    ((ni_dhcp6_fsm_step ⟨.BOUND, none⟩ .userRelease 3).2 ++
       (ni_dhcp6_fsm_step (ni_dhcp6_fsm_step ⟨.BOUND, none⟩ .userRelease 3).1
          .userRelease 4).2).count .sendRelease = 1 ∧
    (ni_dhcp6_fsm_step ⟨.BOUND, none⟩ .userRelease 3).1.state = .RELEASED ∧
    ni_dhcp6_fsm_step (ni_dhcp6_fsm_step ⟨.BOUND, none⟩ .userRelease 3).1
        .userRelease 4 =
      ((ni_dhcp6_fsm_step ⟨.BOUND, none⟩ .userRelease 3).1, []) ∧
    ni_dhcp6_fsm_step ⟨.RELEASED, none⟩ .userRelease 5 = (⟨.RELEASED, none⟩, []) :=
  dhcp6_release_idempotent ⟨.BOUND, none⟩ ⟨.RELEASED, none⟩ 3 4 5 rfl rfl

/-- Freeing through a pointer that does not reference object `i` leaves the
heap unchanged at `i`. -/
theorem ni_refcounted_free_other (h : RcHeap) (p : Option Nat) (i : Nat)
    (hp : p ≠ some i) : ni_refcounted_free h p i = h i := by
  cases p with
  | none => rfl
  | some j =>
      have hij : i ≠ j := fun e => hp (congrArg some e.symm)
      unfold ni_refcounted_free ni_refcount_decrement
      cases hj : h j with
      | none => simp [hj]
      | some m =>
          by_cases hm : m = 0
          · simp [hj, hm]
          · by_cases hz : m - 1 = 0 <;> simp [hj, hm, hz, rcHeapSet, hij]

/-- Freeing a live object with at least two references decrements its count
without destroying it. -/
theorem ni_refcounted_free_at (g : RcHeap) (i m : Nat) (hg : g i = some (m + 2)) :
    ni_refcounted_free g (some i) = rcHeapSet g i (some (m + 1)) := by
  unfold ni_refcounted_free ni_refcount_decrement
  simp [hg]

/-- C10: `drop(tie)` with non-NULL `tie` sets `*tie` to NULL and returns
TRUE, releasing one reference to the old object when `*tie` was non-NULL
(the count drops from n+1 to n, the object being freed when it reaches 0);
`drop` returns FALSE exactly when `tie` itself is NULL; and a second `drop`
on the same tie is a harmless no-op on the pointed-to value. -/
theorem ni_refcounted_drop_spec (h : RcHeap) (i n : Nat) (old : Option Nat)
    (hlive : h i = some (n + 1)) :
    ((ni_refcounted_drop h (some (some i))).2.2 = true ∧
     (ni_refcounted_drop h (some (some i))).2.1 = some none ∧
     (ni_refcounted_drop h (some (some i))).1 i =
       (if n = 0 then none else some n) ∧
     ni_refcounted_drop (ni_refcounted_drop h (some (some i))).1
         (ni_refcounted_drop h (some (some i))).2.1 =
       ((ni_refcounted_drop h (some (some i))).1, some none, true)) ∧
    (ni_refcounted_drop h (some old)).2.2 = true ∧
    (ni_refcounted_drop h (some old)).2.1 = some none ∧
    ni_refcounted_drop h none = (h, none, false) := by
  refine ⟨⟨rfl, rfl, ?_, rfl⟩, rfl, rfl, rfl⟩
  unfold ni_refcounted_drop ni_refcounted_free ni_refcount_decrement
  by_cases hn : n = 0 <;> simp [hlive, hn, rcHeapSet]

/-- Witness for C10 on a concrete heap holding an object with two
references. -/
theorem ni_refcounted_drop_spec_witness :
    ((ni_refcounted_drop rc_witness_heap (some (some 0))).2.2 = true ∧
     (ni_refcounted_drop rc_witness_heap (some (some 0))).2.1 = some none ∧
     (ni_refcounted_drop rc_witness_heap (some (some 0))).1 0 =
       (if 1 = 0 then none else some 1) ∧
     ni_refcounted_drop (ni_refcounted_drop rc_witness_heap (some (some 0))).1
         (ni_refcounted_drop rc_witness_heap (some (some 0))).2.1 =
       ((ni_refcounted_drop rc_witness_heap (some (some 0))).1, some none, true)) ∧
    (ni_refcounted_drop rc_witness_heap (some (some 1))).2.2 = true ∧
    (ni_refcounted_drop rc_witness_heap (some (some 1))).2.1 = some none ∧
    ni_refcounted_drop rc_witness_heap none = (rc_witness_heap, none, false) :=
  ni_refcounted_drop_spec rc_witness_heap 0 1 (some 1) rfl

/-- C9 counterexample: when `*dst` already references the same object as
`*src` (here object 0, reference count 2), `move` succeeds but the object's
reference count is NOT preserved — it drops from 2 to 1 because the old
destination reference is released.  This refutes the claim's net
reference-count preservation at this concrete input, at which all of the
claim's hypotheses (non-NULL `dst` and `src`, live reference in `*src`)
hold. -/
theorem ni_refcounted_move_rc_cex :
    (ni_refcounted_move rc_move_cex_heap (some (some 0)) (some (some 0))).2.2.2
        = true ∧
    rc_move_cex_heap 0 = some 2 ∧
    ¬ ((ni_refcounted_move rc_move_cex_heap (some (some 0)) (some (some 0))).1 0
        = rc_move_cex_heap 0) := by
  decide

/-- C9 (amended): with non-NULL `dst` and `src`, a live reference in `*src`,
and `*dst` not already referencing the same object, `move` behaves as
`hold(dst, *src)` followed by `drop(src)`: it returns TRUE, leaves `*src`
NULL and `*dst` pointing to the object formerly in `*src`, and the object's
reference count is unchanged; if `*src` is NULL, `move` returns FALSE and
neither `*dst` nor `*src` is modified. -/
theorem ni_refcounted_move_spec (h : RcHeap) (dval : Option Nat) (i n : Nat)
    (hlive : h i = some (n + 1)) (hdst : dval ≠ some i) :
    ((ni_refcounted_move h (some dval) (some (some i))).2.2.2 = true ∧
     (ni_refcounted_move h (some dval) (some (some i))).2.2.1 = some none ∧
     (ni_refcounted_move h (some dval) (some (some i))).2.1 = some (some i) ∧
     (ni_refcounted_move h (some dval) (some (some i))).1 i = some (n + 1)) ∧
    ni_refcounted_move h (some dval) (some none) = (h, some dval, some none, false) := by
  have e1 : ni_refcount_increment h i = (rcHeapSet h i (some (n + 2)), true) := by
    simp [ni_refcount_increment, hlive]
  have e2 : ni_refcounted_ref h (some i) = (rcHeapSet h i (some (n + 2)), some i) := by
    simp [ni_refcounted_ref, e1]
  have e3 : ni_refcounted_hold h (some dval) (some i) =
      (ni_refcounted_free (rcHeapSet h i (some (n + 2))) dval, some (some i), true) := by
    simp [ni_refcounted_hold, e2]
  have h2i : ni_refcounted_free (rcHeapSet h i (some (n + 2))) dval i = some (n + 2) := by
    rw [ni_refcounted_free_other _ _ _ hdst]
    simp [rcHeapSet]
  have e5 := ni_refcounted_free_at
    (ni_refcounted_free (rcHeapSet h i (some (n + 2))) dval) i n h2i
  refine ⟨?_, rfl⟩
  simp [ni_refcounted_move, e3, ni_refcounted_drop, e5, rcHeapSet]

/-- Witness for C9 on a concrete heap: object 0 (count 2) moved into a
destination holding a reference to the distinct object 1. -/
theorem ni_refcounted_move_spec_witness :
    ((ni_refcounted_move rc_witness_heap (some (some 1)) (some (some 0))).2.2.2 = true ∧
     (ni_refcounted_move rc_witness_heap (some (some 1)) (some (some 0))).2.2.1 = some none ∧
     (ni_refcounted_move rc_witness_heap (some (some 1)) (some (some 0))).2.1 = some (some 0) ∧
     (ni_refcounted_move rc_witness_heap (some (some 1)) (some (some 0))).1 0 = some 2) ∧
    ni_refcounted_move rc_witness_heap (some (some 1)) (some none) =
      (rc_witness_heap, some (some 1), some none, false) :=
  ni_refcounted_move_spec rc_witness_heap (some 1) 0 1 rfl (by decide)

/-- C5 counterexample: for the two-address lease `lease_t1t2_cex_addrs`
(each address has preferred ≤ valid) with server-supplied T1 = T2 = 0, the
derived values are T1 = 50, T2 = 80, but the minimum valid lifetime is 10,
so `t1 ≤ t2 ≤ min(valid)` fails for this held lease. -/
theorem lease_t1t2_derived_cex :
    ¬ ((lease_effective_t1t2 0 0 lease_t1t2_cex_addrs).1 ≤
         (lease_effective_t1t2 0 0 lease_t1t2_cex_addrs).2 ∧
       (lease_effective_t1t2 0 0 lease_t1t2_cex_addrs).2 ≤
         lease_min_valid lease_t1t2_cex_addrs) := by
  intro hc
  have h2 := hc.2
  norm_num [lease_effective_t1t2, lease_min_valid, lease_max_preferred,
    lease_t1t2_cex_addrs, min_def] at h2

/-- C5 (amended): when the server supplies consistent values
(T1 ≤ T2 ≤ min valid lifetime whenever not both zero) and the longest
preferred lifetime does not exceed the minimum valid lifetime (as with a
single-address lease with preferred ≤ valid), the effective values satisfy
t1 ≤ t2 ≤ min valid, and when the server supplies T1 = T2 = 0 the client
derives T1 = 0.5 and T2 = 0.8 of the longest preferred lifetime. -/
theorem lease_effective_t1t2_spec (t1 t2 : ℚ) (addrs : List IAAddr)
    (hp0 : 0 ≤ lease_max_preferred addrs)
    (hpv : lease_max_preferred addrs ≤ lease_min_valid addrs)
    (hserver : ¬ (t1 = 0 ∧ t2 = 0) → t1 ≤ t2 ∧ t2 ≤ lease_min_valid addrs) :
    (lease_effective_t1t2 t1 t2 addrs).1 ≤ (lease_effective_t1t2 t1 t2 addrs).2 ∧
    (lease_effective_t1t2 t1 t2 addrs).2 ≤ lease_min_valid addrs ∧
    (t1 = 0 ∧ t2 = 0 →
      (lease_effective_t1t2 t1 t2 addrs).1 = lease_max_preferred addrs / 2 ∧
      (lease_effective_t1t2 t1 t2 addrs).2 = 4 * lease_max_preferred addrs / 5) := by
  by_cases hz : t1 = 0 ∧ t2 = 0
  · obtain ⟨h1, h2⟩ := hz
    subst h1; subst h2
    have he : lease_effective_t1t2 0 0 addrs =
        (lease_max_preferred addrs / 2, 4 * lease_max_preferred addrs / 5) := by
      simp [lease_effective_t1t2]
    rw [he]
    refine ⟨?_, ?_, fun _ => ⟨rfl, rfl⟩⟩
    · show lease_max_preferred addrs / 2 ≤ 4 * lease_max_preferred addrs / 5
      linarith
    · show 4 * lease_max_preferred addrs / 5 ≤ lease_min_valid addrs
      linarith
  · have hs := hserver hz
    simp only [lease_effective_t1t2, if_neg hz]
    exact ⟨hs.1, hs.2, fun hc => absurd hc hz⟩

/-- Witness for C5 (amended) on a single-address lease with preferred =
valid = 100 and server-chosen T1 = T2 = 0. -/
theorem lease_effective_t1t2_spec_witness :
    (lease_effective_t1t2 0 0 [⟨1, 100, 100⟩]).1 ≤
      (lease_effective_t1t2 0 0 [⟨1, 100, 100⟩]).2 ∧
    (lease_effective_t1t2 0 0 [⟨1, 100, 100⟩]).2 ≤
      lease_min_valid [⟨1, 100, 100⟩] ∧
    ((0 : ℚ) = 0 ∧ (0 : ℚ) = 0 →
      (lease_effective_t1t2 0 0 [⟨1, 100, 100⟩]).1 =
        lease_max_preferred [⟨1, 100, 100⟩] / 2 ∧
      (lease_effective_t1t2 0 0 [⟨1, 100, 100⟩]).2 =
        4 * lease_max_preferred [⟨1, 100, 100⟩] / 5) :=
  lease_effective_t1t2_spec 0 0 [⟨1, 100, 100⟩]
    (by norm_num [lease_max_preferred])
    (by norm_num [lease_max_preferred, lease_min_valid])
    (fun hc => absurd ⟨rfl, rfl⟩ hc)

/-- Unfolding of the per-try timeout sequence at the first attempt. -/
theorem dhcp6_rt_seq_zero (irt mrt : ℚ) (f : ℕ → ℚ) :
    dhcp6_rt_seq irt mrt f 0 = irt * (1 + f 0) := by
  simp [dhcp6_rt_seq]

/-- Unfolding of the per-try timeout sequence at a retransmission. -/
theorem dhcp6_rt_seq_succ (irt mrt : ℚ) (f : ℕ → ℚ) (n : ℕ) :
    dhcp6_rt_seq irt mrt f (n + 1) =
      dhcp6_next_rt mrt (dhcp6_rt_seq irt mrt f n) (f (n + 1)) := by
  simp [dhcp6_rt_seq]

/-- The schedule with randomization fixed at the lower bound stays
nonnegative. -/
theorem dhcp6_rt_lower_nonneg (irt mrt : ℚ) (hirt : 0 ≤ irt) (hmrt : 0 ≤ mrt) :
    ∀ n, 0 ≤ dhcp6_rt_seq irt mrt (fun _ => -(1/10)) n := by
  intro n
  induction n with
  | zero =>
      rw [dhcp6_rt_seq_zero]
      nlinarith
  | succ k ih =>
      rw [dhcp6_rt_seq_succ]
      unfold dhcp6_next_rt
      split <;> nlinarith

/-- One scheduler step is dominated by the step of the +0.1 deterministic
schedule. -/
theorem dhcp6_next_rt_le_upper (mrt x u r : ℚ) (hmrt : 0 ≤ mrt) (hx : 0 ≤ x)
    (hxu : x ≤ u) ( _hrl : -(1/10) ≤ r) (hrh : r ≤ 1/10) :
    dhcp6_next_rt mrt x r ≤ dhcp6_next_rt mrt u (1/10) := by
  unfold dhcp6_next_rt
  by_cases hcx : mrt / 2 ≤ x
  · rw [if_pos hcx, if_pos (le_trans hcx hxu)]
    nlinarith [mul_nonneg hmrt (by linarith : (0:ℚ) ≤ 1/10 - r)]
  · rw [if_neg hcx]
    by_cases hcu : mrt / 2 ≤ u
    · rw [if_pos hcu]
      have e1 : 2 * x * (1 + r) ≤ 2 * x * (11/10) := by
        nlinarith [mul_nonneg hx (by linarith : (0:ℚ) ≤ 1/10 - r)]
      have e2 : 2 * x * (11/10) ≤ mrt * (11/10) := by linarith
      nlinarith
    · rw [if_neg hcu]
      have e1 : 2 * x * (1 + r) ≤ 2 * x * (11/10) := by
        nlinarith [mul_nonneg hx (by linarith : (0:ℚ) ≤ 1/10 - r)]
      have e2 : 2 * x * (11/10) ≤ 2 * u * (11/10) := by linarith
      nlinarith

/-- One scheduler step dominates the step of the -0.1 deterministic
schedule. -/
theorem dhcp6_next_rt_ge_lower (mrt l x r : ℚ) (hmrt : 0 ≤ mrt) (hl : 0 ≤ l)
    (hlx : l ≤ x) (hrl : -(1/10) ≤ r) :
    dhcp6_next_rt mrt l (-(1/10)) ≤ dhcp6_next_rt mrt x r := by
  have hx : 0 ≤ x := le_trans hl hlx
  unfold dhcp6_next_rt
  by_cases hcl : mrt / 2 ≤ l
  · rw [if_pos hcl, if_pos (le_trans hcl hlx)]
    nlinarith [mul_nonneg hmrt (by linarith : (0:ℚ) ≤ r + 1/10)]
  · rw [if_neg hcl]
    by_cases hcx : mrt / 2 ≤ x
    · rw [if_pos hcx]
      have e1 : 2 * l * (9/10) ≤ mrt * (9/10) := by linarith
      have e2 : mrt * (9/10) ≤ mrt * (1 + r) := by
        nlinarith [mul_nonneg hmrt (by linarith : (0:ℚ) ≤ r + 1/10)]
      nlinarith
    · rw [if_neg hcx]
      have e1 : 2 * l * (9/10) ≤ 2 * x * (9/10) := by linarith
      have e2 : 2 * x * (9/10) ≤ 2 * x * (1 + r) := by
        nlinarith [mul_nonneg hx (by linarith : (0:ℚ) ≤ r + 1/10)]
      nlinarith

/-- Element-wise envelope for the generic per-try timeout sequence. -/
theorem dhcp6_rt_envelope_aux (irt mrt : ℚ) (rand : ℕ → ℚ)
    (hirt : 0 ≤ irt) (hmrt : 0 ≤ mrt)
    (hlo : ∀ k, -(1/10) ≤ rand k) (hhi : ∀ k, rand k ≤ 1/10) :
    ∀ n, dhcp6_rt_seq irt mrt (fun _ => -(1/10)) n ≤ dhcp6_rt_seq irt mrt rand n ∧
         dhcp6_rt_seq irt mrt rand n ≤ dhcp6_rt_seq irt mrt (fun _ => (1/10)) n := by
  intro n
  induction n with
  | zero =>
      rw [dhcp6_rt_seq_zero, dhcp6_rt_seq_zero, dhcp6_rt_seq_zero]
      constructor
      · nlinarith [mul_nonneg hirt (by linarith [hlo 0] : (0:ℚ) ≤ rand 0 + 1/10)]
      · nlinarith [mul_nonneg hirt (by linarith [hhi 0] : (0:ℚ) ≤ 1/10 - rand 0)]
  | succ k ih =>
      obtain ⟨ihl, ihr⟩ := ih
      have hLnn : 0 ≤ dhcp6_rt_seq irt mrt (fun _ => -(1/10)) k :=
        dhcp6_rt_lower_nonneg irt mrt hirt hmrt k
      have hRnn : 0 ≤ dhcp6_rt_seq irt mrt rand k := le_trans hLnn ihl
      rw [dhcp6_rt_seq_succ, dhcp6_rt_seq_succ, dhcp6_rt_seq_succ]
      constructor
      · exact dhcp6_next_rt_ge_lower mrt _ _ _ hmrt hLnn ihl (hlo (k + 1))
      · exact dhcp6_next_rt_le_upper mrt _ _ _ hmrt hRnn ihr (hlo (k + 1)) (hhi (k + 1))

/-- C8 counterexample: a Solicit transaction with IRT = 1, MRT = 120, all
±0.1 randomization draws equal to 0, and first-attempt delay fraction 1
(the spec's Solicit special case draws uniformly from 0..IRT) has a first
per-try timeout of 2, exceeding the +0.1 deterministic schedule's first
entry 11/10 — so the envelope does not hold for every transaction. -/
theorem dhcp6_retransmit_envelope_cex :
    ¬ (dhcp6_sched_rt .Solicit 1 1 120 (fun _ => 0) 0 ≤ dhcp6_det_rt 1 120 (1/10) 0) := by
  norm_num [dhcp6_sched_rt, dhcp6_det_rt, dhcp6_rt_seq]

/-- C8 (amended): for every non-Solicit transaction and every sequence of
randomization draws in [-0.1, +0.1], the per-try timeouts are bounded
element-wise below by the deterministic schedule with randomization fixed at
-0.1 and above by the one fixed at +0.1 (the deterministic schedule starts
at IRT, doubles each try, and is capped at MRT); the Solicit first attempt
is additionally delayed by up to IRT and can exceed the upper schedule. -/
theorem dhcp6_retransmit_envelope (kind : Dhcp6TxKind) (frac irt mrt : ℚ)
    (rand : ℕ → ℚ) (hkind : kind ≠ .Solicit) (hirt : 0 ≤ irt) (hmrt : 0 ≤ mrt)
    (hlo : ∀ k, -(1/10) ≤ rand k) (hhi : ∀ k, rand k ≤ 1/10) (n : ℕ) :
    dhcp6_det_rt irt mrt (-(1/10)) n ≤ dhcp6_sched_rt kind frac irt mrt rand n ∧
    dhcp6_sched_rt kind frac irt mrt rand n ≤ dhcp6_det_rt irt mrt (1/10) n := by
  have hsched : dhcp6_sched_rt kind frac irt mrt rand n = dhcp6_rt_seq irt mrt rand n := by
    cases kind
    case Solicit => exact absurd rfl hkind
    all_goals rfl
  rw [hsched]
  exact dhcp6_rt_envelope_aux irt mrt rand hirt hmrt hlo hhi n

/-- Witness for C8 (amended): a Request transaction with IRT = 1, MRT = 120,
all randomization draws 0, at the second try. -/
theorem dhcp6_retransmit_envelope_witness :
    dhcp6_det_rt 1 120 (-(1/10)) 1 ≤ dhcp6_sched_rt .Request 0 1 120 (fun _ => 0) 1 ∧
    dhcp6_sched_rt .Request 0 1 120 (fun _ => 0) 1 ≤ dhcp6_det_rt 1 120 (1/10) 1 :=
  dhcp6_retransmit_envelope .Request 0 1 120 (fun _ => 0) (by decide)
    (by norm_num) (by norm_num) (fun k => by norm_num) (fun k => by norm_num) 1

end Wicked
